import Mathlib

/-!
Verification development for the iceoryx2 publish/subscribe data plane.

The definitions below are a shallow embedding of the Rust sources:

* `iceoryx2/src/service/dynamic_config/publish_subscribe.rs`
  (`mode_to_permission`, `PublisherDetails`, `SubscriberDetails`,
  `DynamicConfig::remove_dead_node_id`),
* `iceoryx2/src/service/port_factory/subscriber.rs`
  (`SubscriberConfig`, `PortFactorySubscriber`),
* `iceoryx2-ffi/ffi/src/api/sample_mut.rs`
  (`iox2_sample_mut_t`, `iox2_sample_mut_move`, `iox2_sample_mut_send`,
  `iox2_sample_mut_payload`, `iox2_sample_mut_payload_mut`),

plus a model, written from the specification, of the publisher/subscriber
port state machines whose implementation files are not part of this
source snapshot (only their tests are).

Machine integers (u16, u32, usize, u8) are modelled as `Nat`; no modelled
operation can overflow them, and where a claim ranges over a machine
integer type the theorem carries the corresponding bound as a hypothesis.
-/

namespace Iceoryx2

/-! ## Permissions (`iceoryx2_bb_posix::permission::Permission` as used by
`dynamic_config/publish_subscribe.rs`)

The `Permission` bitflag type is modelled as a record of the nine POSIX
rwx flags; `Permission::none()` is the record with every flag cleared and
`|=` with a single flag sets the corresponding field. -/

structure Permission where
  owner_read : Bool
  owner_write : Bool
  owner_exec : Bool
  group_read : Bool
  group_write : Bool
  group_exec : Bool
  others_read : Bool
  others_write : Bool
  others_exec : Bool
deriving DecidableEq, Repr

/-- `Permission::none()`: no flag set. -/
def Permission.none : Permission :=
  ⟨false, false, false, false, false, false, false, false, false⟩

/-- Embedding of `mode_to_permission` from
`service/dynamic_config/publish_subscribe.rs` lines 45-57: starting from
`Permission::none()`, each POSIX mode bit that is set ORs in the
corresponding flag. -/
def mode_to_permission (mode : Nat) : Permission :=
  let p := Permission.none
  let p := if mode &&& 0o400 != 0 then { p with owner_read := true } else p
  let p := if mode &&& 0o200 != 0 then { p with owner_write := true } else p
  let p := if mode &&& 0o100 != 0 then { p with owner_exec := true } else p
  let p := if mode &&& 0o040 != 0 then { p with group_read := true } else p
  let p := if mode &&& 0o020 != 0 then { p with group_write := true } else p
  let p := if mode &&& 0o010 != 0 then { p with group_exec := true } else p
  let p := if mode &&& 0o004 != 0 then { p with others_read := true } else p
  let p := if mode &&& 0o002 != 0 then { p with others_write := true } else p
  let p := if mode &&& 0o001 != 0 then { p with others_exec := true } else p
  p

/-! ## Endpoint detail records (`dynamic_config/publish_subscribe.rs`) -/

/-- `DataSegmentType` (referenced by `PublisherDetails`). -/
inductive DataSegmentType where
  | Static
  | Dynamic
deriving DecidableEq, Repr

/-- `PublisherDetails` (lines 70-94): ids and u32/u16 fields as `Nat`. -/
structure PublisherDetails where
  publisher_id : Nat
  node_id : Nat
  number_of_samples : Nat
  max_slice_len : Nat
  data_segment_type : DataSegmentType
  max_number_of_segments : Nat
  owner_uid : Nat
  group_gid : Nat
  mode : Nat
deriving DecidableEq, Repr

/-- `PublisherDetails::mode` (line 108-110). -/
def PublisherDetails.mode_fn (d : PublisherDetails) : Nat :=
  d.mode

/-- `PublisherDetails::permission` (line 113-115). -/
def PublisherDetails.permission (d : PublisherDetails) : Permission :=
  mode_to_permission d.mode

/-- `PublisherDetails::set_mode` (line 128-130). -/
def PublisherDetails.set_mode (d : PublisherDetails) (mode : Nat) : PublisherDetails :=
  { d with mode := mode }

/-- `SubscriberDetails` (lines 142-156). -/
structure SubscriberDetails where
  subscriber_id : Nat
  node_id : Nat
  buffer_size : Nat
  owner_uid : Nat
  group_gid : Nat
  mode : Nat
deriving DecidableEq, Repr

/-- `SubscriberDetails::mode` (line 170-172). -/
def SubscriberDetails.mode_fn (d : SubscriberDetails) : Nat :=
  d.mode

/-- `SubscriberDetails::permission` (line 175-177). -/
def SubscriberDetails.permission (d : SubscriberDetails) : Permission :=
  mode_to_permission d.mode

/-- `SubscriberDetails::set_mode` (line 190-192). -/
def SubscriberDetails.set_mode (d : SubscriberDetails) (mode : Nat) : SubscriberDetails :=
  { d with mode := mode }

/-! ## Dynamic config registry and dead-node sweep -/

/-- `PortCleanupAction` (from `dynamic_config/mod.rs`, used by
`remove_dead_node_id`). -/
inductive PortCleanupAction where
  | RemovePort
  | SkipPort
deriving DecidableEq, Repr

/-- `UniquePortId` (from `port_identifiers.rs`): tagged publisher or
subscriber id. -/
inductive UniquePortId where
  | Publisher (id : Nat)
  | Subscriber (id : Nat)
deriving DecidableEq, Repr

/-- The registry's lock-free `Container` is modelled as a list of live
entries, each a stable `ContainerHandle` (a `Nat`) paired with the stored
details; `get_state().for_each` visits the entries in list order and
`remove handle` deletes the entry with that handle. -/
structure DynamicConfig where
  subscribers : List (Nat × SubscriberDetails)
  publishers : List (Nat × PublisherDetails)
deriving DecidableEq, Repr

/-- The publisher half of `DynamicConfig::remove_dead_node_id`
(lines 239-250): `for_each` over the snapshot; when the entry's node id
equals the dead node's id the cleanup callback is invoked with the
publisher's `UniquePortId`, and when it answers `RemovePort` the handle
is released (the entry is dropped from the live list). Returns the
surviving entries together with the ordered trace of callback
invocations. -/
def sweep_publishers (node_id : Nat) (cb : UniquePortId → PortCleanupAction) :
    List (Nat × PublisherDetails) →
    List (Nat × PublisherDetails) × List UniquePortId
  | [] => ([], [])
  | e :: rest =>
    let r := sweep_publishers node_id cb rest
    if e.2.node_id = node_id then
      let pid := UniquePortId.Publisher e.2.publisher_id
      if cb pid = PortCleanupAction.RemovePort then
        (r.1, pid :: r.2)
      else
        (e :: r.1, pid :: r.2)
    else
      (e :: r.1, r.2)

/-- The subscriber half of `DynamicConfig::remove_dead_node_id`
(lines 252-263), identical in structure to the publisher half. -/
def sweep_subscribers (node_id : Nat) (cb : UniquePortId → PortCleanupAction) :
    List (Nat × SubscriberDetails) →
    List (Nat × SubscriberDetails) × List UniquePortId
  | [] => ([], [])
  | e :: rest =>
    let r := sweep_subscribers node_id cb rest
    if e.2.node_id = node_id then
      let sid := UniquePortId.Subscriber e.2.subscriber_id
      if cb sid = PortCleanupAction.RemovePort then
        (r.1, sid :: r.2)
      else
        (e :: r.1, sid :: r.2)
    else
      (e :: r.1, r.2)

/-- `DynamicConfig::remove_dead_node_id` (lines 232-264): sweep all
publishers first, then all subscribers. Returns the registry after the
sweep and the ordered trace of cleanup-callback invocations. -/
def DynamicConfig.remove_dead_node_id (cfg : DynamicConfig) (node_id : Nat)
    (cb : UniquePortId → PortCleanupAction) : DynamicConfig × List UniquePortId :=
  let p := sweep_publishers node_id cb cfg.publishers
  let s := sweep_subscribers node_id cb cfg.subscribers
  ({ subscribers := s.1, publishers := p.1 }, p.2 ++ s.2)

/-! ## Subscriber port factory (`service/port_factory/subscriber.rs`)

`DegradationCallback` and the factory back-reference are opaque to every
claim about this file, so both are type parameters. -/

/-- `SubscriberConfig` (lines 47-53). -/
structure SubscriberConfig (DC : Type) where
  buffer_size : Option Nat
  degradation_callback : Option DC
  owner_uid : Option Nat
  group_gid : Option Nat
  mode : Option Nat

/-- `PortFactorySubscriber` (lines 59-67): the builder's config plus the
reference to the owning `PortFactory`. -/
structure PortFactorySubscriber (DC F : Type) where
  config : SubscriberConfig DC
  factory : F

/-- `PortFactorySubscriber::__internal_partial_clone` (lines 88-99):
copies every config field and the factory reference but always drops the
degradation callback. -/
def PortFactorySubscriber.__internal_partial_clone {DC F : Type}
    (s : PortFactorySubscriber DC F) : PortFactorySubscriber DC F :=
  { config :=
      { buffer_size := s.config.buffer_size
        degradation_callback := Option.none
        owner_uid := s.config.owner_uid
        group_gid := s.config.group_gid
        mode := s.config.mode }
    factory := s.factory }

/-- `PortFactorySubscriber::buffer_size` (lines 115-118):
`self.config.buffer_size = Some(value.max(1))`. -/
def PortFactorySubscriber.buffer_size {DC F : Type}
    (s : PortFactorySubscriber DC F) (value : Nat) : PortFactorySubscriber DC F :=
  { s with config := { s.config with buffer_size := Option.some (value.max 1) } }

/-! ## FFI sample handle (`iceoryx2-ffi/ffi/src/api/sample_mut.rs`)

`SampleMutUninitUnion` is a Rust `union` whose `ipc` and `local` members
are layout-compatible `SampleMutUninit` values differing only in the
service-type parameter; reading either member reinterprets the same
stored bytes. The union is therefore modelled as one record of the
observable components those reads reach: the payload view (base pointer
and byte length) and the header's element count. -/

structure SampleMutUninitUnion where
  payload_ptr : Nat
  payload_len : Nat
  number_of_elements : Nat
deriving DecidableEq, Repr

/-- Reading the `ipc` member and calling `payload_mut()`: the payload
view of the stored sample. -/
def SampleMutUninitUnion.ipc_payload_mut (u : SampleMutUninitUnion) : Nat × Nat :=
  (u.payload_ptr, u.payload_len)

/-- Reading the `local` member and calling `payload_mut()`: the same
stored bytes viewed through the other union member. -/
def SampleMutUninitUnion.local_payload_mut (u : SampleMutUninitUnion) : Nat × Nat :=
  (u.payload_ptr, u.payload_len)

/-- Reading the `local` member and calling `header().number_of_elements()`. -/
def SampleMutUninitUnion.local_header_number_of_elements
    (u : SampleMutUninitUnion) : Nat :=
  u.number_of_elements

/-- `iox2_service_type_e`. -/
inductive Iox2ServiceType where
  | IPC
  | LOCAL
deriving DecidableEq, Repr

/-- `iox2_sample_mut_t` (lines 61-65): service-type tag, the 64-byte
storage cell holding `Option<SampleMutUninitUnion>` (`Option.none` =
empty, i.e. moved-out or already sent), and the deleter (identified by a
`Nat`, since only its identity is observable). -/
structure Iox2SampleMutT where
  service_type : Iox2ServiceType
  value : Option SampleMutUninitUnion
  deleter : Nat
deriving DecidableEq, Repr

/-- `iox2_sample_mut_move` (lines 130-153). The two structs live at
addresses `source_addr` and `dest_addr`; `as_handle()` on a struct is its
address. `source.value.as_option_mut().take()` empties the source cell
and `.expect(...)` panics (modelled as `Except.error` carrying the panic
message) when the cell was already empty. On success the result is
(source after the take, overwritten destination, handle value written
through `dest_handle_ptr`). -/
def iox2_sample_mut_move (source _dest : Iox2SampleMutT)
    (_source_addr dest_addr : Nat) :
    Except String (Iox2SampleMutT × Iox2SampleMutT × Nat) :=
  match source.value with
  | Option.none => Except.error "Source must have a valid sample"
  | Option.some v =>
    Except.ok
      ({ source with value := Option.none },
       { service_type := source.service_type
         value := Option.some v
         deleter := source.deleter },
       dest_addr)

/-- `iox2_sample_mut_payload_mut` (lines 248-271): the payload view is
read through the `ipc` union member before the service-type match; both
match arms write that view's base pointer; when `number_of_elements` is
non-null the element count is read through the `local` member's header.
Result: (payload pointer written, element count written when requested). -/
def iox2_sample_mut_payload_mut (sample : Iox2ServiceType × SampleMutUninitUnion)
    (number_of_elements_requested : Bool) : Nat × Option Nat :=
  let payload := sample.2.ipc_payload_mut
  let ptr :=
    match sample.1 with
    | Iox2ServiceType.IPC => payload.1
    | Iox2ServiceType.LOCAL => payload.1
  (ptr,
   if number_of_elements_requested then
     Option.some sample.2.local_header_number_of_elements
   else
     Option.none)

/-- `iox2_sample_mut_payload` (lines 281-304): identical body to
`iox2_sample_mut_payload_mut` except the pointer is written through a
`*const c_void` out-parameter. -/
def iox2_sample_mut_payload (sample : Iox2ServiceType × SampleMutUninitUnion)
    (number_of_elements_requested : Bool) : Nat × Option Nat :=
  let payload := sample.2.ipc_payload_mut
  let ptr :=
    match sample.1 with
    | Iox2ServiceType.IPC => payload.1
    | Iox2ServiceType.LOCAL => payload.1
  (ptr,
   if number_of_elements_requested then
     Option.some sample.2.local_header_number_of_elements
   else
     Option.none)

/-- Observable events of `iox2_sample_mut_send`, in execution order. -/
inductive SendEvent where
  | took_sample
  | ran_deleter (deleter : Nat)
  | terminal_send (service_type : Iox2ServiceType)
deriving DecidableEq, Repr

/-- Outcome of `iox2_sample_mut_send`: `Except.error` carries the panic
message of the `unwrap_or_else(|| panic!(...))` path; `Except.ok`
carries the C return value together with the recipient count written
through `number_of_recipients` (when that pointer was non-null and the
send succeeded). -/
abbrev Iox2SendRet := Except String (Int × Option Nat)

/-- `IOX2_OK`. -/
def IOX2_OK : Int := 0

/-- `iox2_sample_mut_send` (lines 314-360). The storage cell is emptied
by `take()` — panicking with "Trying to send an already sent sample!"
when it is already empty — then the struct's deleter runs on the struct,
and only then the terminal `assume_init().send()` of the taken sample
executes. The underlying delivery result is an environment input
`send_result` (`Except` error code or recipient count); `recipients_null`
says whether the `number_of_recipients` out-pointer was null. Returns
(struct state after the call, event trace, outcome). -/
def iox2_sample_mut_send (sample_struct : Iox2SampleMutT)
    (send_result : Except Int Nat) (recipients_null : Bool) :
    Iox2SampleMutT × List SendEvent × Iox2SendRet :=
  match sample_struct.value with
  | Option.none =>
    (sample_struct, [], Except.error "Trying to send an already sent sample!")
  | Option.some _ =>
    let emptied := { sample_struct with value := Option.none }
    let trace := [SendEvent.took_sample, SendEvent.ran_deleter sample_struct.deleter,
                  SendEvent.terminal_send sample_struct.service_type]
    match send_result with
    | Except.ok v =>
      (emptied, trace,
       Except.ok (IOX2_OK, if recipients_null then Option.none else Option.some v))
    | Except.error e =>
      (emptied, trace, Except.ok (e, Option.none))

/-! ## Publisher and subscriber port model

The publisher port (`port/publisher.rs`) and subscriber port
(`port/subscriber.rs`) implementations are not part of this source
snapshot — only their tests (`tests/publisher_tests.rs`) are — so the
operations below are modelled from the specification (§4.4 publisher
port, §4.5 subscriber port, §4.6 sample state machine). -/

/-- `LoanError` as displayed by `tests/publisher_tests.rs`
(`loan_error_display_works`). -/
inductive LoanError where
  | OutOfMemory
  | ExceedsMaxLoans
  | ExceedsMaxLoanSize
  | InternalFailure
deriving DecidableEq, Repr

/-- Modelled from the spec: the publisher-port state the loan/send
contract of §4.4 observes — the configured `max_loaned_samples` and
`initial_max_slice_len`, and the outstanding-loan counter. -/
structure PublisherModel where
  max_loaned_samples : Nat
  max_slice_len : Nat
  outstanding_loans : Nat
deriving DecidableEq, Repr

/-- Modelled from the spec: a `SampleMutUninit` of §4.6 — a loaned slot
whose memory may be garbage; it exposes no readable payload. -/
structure UninitSample where
deriving DecidableEq, Repr

/-- Modelled from the spec: an initialised publisher-side sample of §4.6,
carrying the payload value the producer wrote (the payload type is the
bit-pattern the subscriber will observe). -/
structure InitSample (α : Type) where
  payload : α
deriving DecidableEq, Repr

/-- Modelled from the spec: a slice sample of §4.4 (`loan_slice(n)`
returns a "Sample over `n` elements, default-filled"). -/
structure SliceSample where
  number_of_elements : Nat
deriving DecidableEq, Repr

/-- Modelled from the spec (§4.4): `loan_uninit()`. The outstanding-loan
counter is incremented on success; when it has reached
`max_loaned_samples`, the loan fails with `ExceedsMaxLoans`. -/
def PublisherModel.loan_uninit (p : PublisherModel) :
    Except LoanError (PublisherModel × UninitSample) :=
  if p.outstanding_loans < p.max_loaned_samples then
    Except.ok ({ p with outstanding_loans := p.outstanding_loans + 1 }, ⟨⟩)
  else
    Except.error LoanError.ExceedsMaxLoans

/-- Modelled from the spec (§4.6): `write_payload(v)` consumes an
`UninitSample` and yields an `InitSample` holding `v`. -/
def UninitSample.write_payload {α : Type} (_s : UninitSample) (v : α) :
    InitSample α :=
  ⟨v⟩

/-- Modelled from the spec (§4.4, §4.3): `loan_slice(n)` fails with
`ExceedsMaxLoanSize` when `n` exceeds the publisher's configured max
slice length, fails with `ExceedsMaxLoans` when the outstanding-loan
counter is exhausted, and otherwise returns a sample over exactly `n`
elements while incrementing the counter. -/
def PublisherModel.loan_slice (p : PublisherModel) (n : Nat) :
    Except LoanError (PublisherModel × SliceSample) :=
  if p.max_slice_len < n then
    Except.error LoanError.ExceedsMaxLoanSize
  else if p.outstanding_loans < p.max_loaned_samples then
    Except.ok ({ p with outstanding_loans := p.outstanding_loans + 1 }, ⟨n⟩)
  else
    Except.error LoanError.ExceedsMaxLoans

/-- Modelled from the spec (§4.6): dropping an unsent sample releases the
slot and decrements the outstanding-loan counter by one. -/
def PublisherModel.drop_sample (p : PublisherModel) : PublisherModel :=
  { p with outstanding_loans := p.outstanding_loans - 1 }

/-- Modelled from the spec (§4.5): the subscriber port — a bounded FIFO
of delivered payloads, oldest at the head. -/
structure SubscriberModel (α : Type) where
  buffer_size : Nat
  queue : List α
deriving DecidableEq, Repr

/-- Modelled from the spec (§4.4): `send` on a connected subscriber.
The outstanding-loan counter is decremented before the enqueue; the
payload is appended to the subscriber's queue when it has room
(otherwise the `DiscardSample` policy skips the subscriber). Returns the
publisher and subscriber states and the number of recipients. -/
def PublisherModel.send {α : Type} (p : PublisherModel) (s : InitSample α)
    (sub : SubscriberModel α) : PublisherModel × SubscriberModel α × Nat :=
  let p' := { p with outstanding_loans := p.outstanding_loans - 1 }
  if sub.queue.length < sub.buffer_size then
    (p', { sub with queue := sub.queue ++ [s.payload] }, 1)
  else
    (p', sub, 0)

/-- Modelled from the spec (§4.5): `receive()` pops the oldest enqueued
payload (FIFO) or returns `Option.none` on an empty queue. -/
def SubscriberModel.receive {α : Type} (sub : SubscriberModel α) :
    Option α × SubscriberModel α :=
  match sub.queue with
  | [] => (Option.none, sub)
  | v :: rest => (Option.some v, { sub with queue := rest })

/-- A connected publisher/subscriber pair. -/
structure PubSubState (α : Type) where
  publisher : PublisherModel
  subscriber : SubscriberModel α
deriving DecidableEq, Repr

/-- One round of the §8 round-trip law on a connected pair:
`loan_uninit(); write_payload(v); send()`. -/
def publish_value {α : Type} (st : PubSubState α) (v : α) :
    Except LoanError (PubSubState α) :=
  match st.publisher.loan_uninit with
  | Except.error e => Except.error e
  | Except.ok (p, s) =>
    let r := p.send (s.write_payload v) st.subscriber
    Except.ok { publisher := r.1, subscriber := r.2.1 }

/-- Publishing a sequence of values in order. -/
def publish_all {α : Type} (st : PubSubState α) :
    List α → Except LoanError (PubSubState α)
  | [] => Except.ok st
  | v :: vs =>
    match publish_value st v with
    | Except.error e => Except.error e
    | Except.ok st' => publish_all st' vs

/-- Receiving `n` times, collecting the delivered payloads in order. -/
def receive_all {α : Type} (sub : SubscriberModel α) :
    Nat → List α × SubscriberModel α
  | 0 => ([], sub)
  | n + 1 =>
    match sub.receive with
    | (Option.none, sub') => ([], sub')
    | (Option.some v, sub') =>
      let r := receive_all sub' n
      (v :: r.1, r.2)

/-! ## Theorems -/

/-- C9: for every usize value `v`, `PortFactorySubscriber::buffer_size(v)`
sets the configured subscriber buffer size to `max(v, 1)` and never fails
(it is a total builder method); in particular `buffer_size(0)` silently
configures a buffer of size 1 rather than rejecting the value. -/
theorem C9_buffer_size_clamps_to_one {DC F : Type}
    (s : PortFactorySubscriber DC F) (v : Nat) :
    (s.buffer_size v).config.buffer_size = Option.some (Nat.max v 1) ∧
    (s.buffer_size 0).config.buffer_size = Option.some 1 :=
  ⟨rfl, rfl⟩

/-- C10: `__internal_partial_clone` returns a factory whose buffer_size,
owner_uid, group_gid, mode and factory reference equal those of the
original, and whose degradation_callback is always `None` regardless of
the original's callback. -/
theorem C10_partial_clone_drops_only_callback {DC F : Type}
    (s : PortFactorySubscriber DC F) :
    s.__internal_partial_clone.config.buffer_size = s.config.buffer_size ∧
    s.__internal_partial_clone.config.owner_uid = s.config.owner_uid ∧
    s.__internal_partial_clone.config.group_gid = s.config.group_gid ∧
    s.__internal_partial_clone.config.mode = s.config.mode ∧
    s.__internal_partial_clone.factory = s.factory ∧
    s.__internal_partial_clone.config.degradation_callback = Option.none :=
  ⟨rfl, rfl, rfl, rfl, rfl, rfl⟩

/-- C8: `iox2_sample_mut_payload_mut` and `iox2_sample_mut_payload`
behave identically for the IPC and LOCAL service types: for every stored
sample both branches of the service-type match write the same payload
pointer and the same element count to the output parameters, and the two
functions agree with each other. -/
theorem C8_payload_branches_identical (u : SampleMutUninitUnion) (b : Bool) :
    iox2_sample_mut_payload_mut (Iox2ServiceType.IPC, u) b =
      iox2_sample_mut_payload_mut (Iox2ServiceType.LOCAL, u) b ∧
    iox2_sample_mut_payload (Iox2ServiceType.IPC, u) b =
      iox2_sample_mut_payload (Iox2ServiceType.LOCAL, u) b ∧
    ∀ st : Iox2ServiceType,
      iox2_sample_mut_payload (st, u) b = iox2_sample_mut_payload_mut (st, u) b :=
  ⟨rfl, rfl, fun _ => rfl⟩

/-- C7: for every initialized source cell, `iox2_sample_mut_move`
transfers the contained sample value from the source storage cell to the
destination cell, leaves the source cell empty (its option becomes
`None`), copies the service_type tag and deleter to the destination, and
writes the destination struct's handle (its address) through
`dest_handle_ptr`. -/
theorem C7_move_transfers_and_empties_source
    (source dest : Iox2SampleMutT) (source_addr dest_addr : Nat)
    (v : SampleMutUninitUnion) (h : source.value = Option.some v) :
    iox2_sample_mut_move source dest source_addr dest_addr =
      Except.ok
        ({ source with value := Option.none },
         { service_type := source.service_type
           value := Option.some v
           deleter := source.deleter },
         dest_addr) := by
  simp [iox2_sample_mut_move, h]

/-- Witness for C7 at a concrete initialized source cell. -/
theorem C7_move_witness :
    iox2_sample_mut_move
        ⟨Iox2ServiceType.IPC, Option.some ⟨4096, 8, 1⟩, 3⟩
        ⟨Iox2ServiceType.LOCAL, Option.none, 9⟩ 100 200 =
      Except.ok
        (⟨Iox2ServiceType.IPC, Option.none, 3⟩,
         ⟨Iox2ServiceType.IPC, Option.some ⟨4096, 8, 1⟩, 3⟩, 200) :=
  C7_move_transfers_and_empties_source
    ⟨Iox2ServiceType.IPC, Option.some ⟨4096, 8, 1⟩, 3⟩
    ⟨Iox2ServiceType.LOCAL, Option.none, 9⟩ 100 200 ⟨4096, 8, 1⟩ rfl

/-- C3: calling `iox2_sample_mut_send` on a sample handle whose backing
storage cell is already empty is detected and reported as a defined
error (the "Trying to send an already sent sample!" abort), with no
terminal send executed; and a first send on a non-empty cell empties the
storage cell (the `take()` event precedes the terminal send in the
trace, and the struct's cell is `None` afterwards), so a re-send attempt
on the same struct observes "already sent". -/
theorem C3_double_send_detected (st : Iox2SampleMutT)
    (send_result send_result' : Except Int Nat) (rn rn' : Bool)
    (u : SampleMutUninitUnion) :
    (st.value = Option.none →
      iox2_sample_mut_send st send_result rn =
        (st, [], Except.error "Trying to send an already sent sample!")) ∧
    (st.value = Option.some u →
      (iox2_sample_mut_send st send_result rn).1.value = Option.none ∧
      (iox2_sample_mut_send st send_result rn).2.1 =
        [SendEvent.took_sample, SendEvent.ran_deleter st.deleter,
         SendEvent.terminal_send st.service_type] ∧
      (iox2_sample_mut_send (iox2_sample_mut_send st send_result rn).1
          send_result' rn').2.2 =
        Except.error "Trying to send an already sent sample!") := by
  constructor
  · intro h
    simp [iox2_sample_mut_send, h]
  · intro h
    cases send_result with
    | ok v => simp [iox2_sample_mut_send, h]
    | error e => simp [iox2_sample_mut_send, h]

/-- Witness for C3: a concrete empty cell is rejected, and a concrete
first send empties the cell. -/
theorem C3_double_send_witness :
    iox2_sample_mut_send ⟨Iox2ServiceType.IPC, Option.none, 7⟩ (Except.ok 1) false =
      (⟨Iox2ServiceType.IPC, Option.none, 7⟩, [],
       Except.error "Trying to send an already sent sample!") ∧
    (iox2_sample_mut_send ⟨Iox2ServiceType.IPC, Option.some ⟨4096, 8, 1⟩, 7⟩
        (Except.ok 1) false).1.value = Option.none := by
  have h1 := C3_double_send_detected ⟨Iox2ServiceType.IPC, Option.none, 7⟩
    (Except.ok 1) (Except.ok 1) false false ⟨4096, 8, 1⟩
  have h2 := C3_double_send_detected ⟨Iox2ServiceType.IPC, Option.some ⟨4096, 8, 1⟩, 7⟩
    (Except.ok 1) (Except.ok 1) false false ⟨4096, 8, 1⟩
  exact ⟨h1.1 rfl, (h2.2 rfl).1⟩

/-- A bitwise AND with a power of two is nonzero exactly when the
corresponding bit is set. -/
theorem land_pow_testBit (m i : Nat) : (m &&& 2 ^ i != 0) = m.testBit i := by
  rw [Nat.and_two_pow]
  cases h : m.testBit i <;> simp [h, Nat.pos_iff_ne_zero, Nat.pos_pow_of_pos]

/-- `mode_to_permission` expanded: each flag is set exactly when the
corresponding octal mode bit survives the AND. -/
theorem mode_to_permission_expand (m : Nat) :
    mode_to_permission m =
      ⟨m &&& 0o400 != 0, m &&& 0o200 != 0, m &&& 0o100 != 0,
       m &&& 0o040 != 0, m &&& 0o020 != 0, m &&& 0o010 != 0,
       m &&& 0o004 != 0, m &&& 0o002 != 0, m &&& 0o001 != 0⟩ := by
  unfold mode_to_permission
  cases (m &&& 0o400 != 0) <;> cases (m &&& 0o200 != 0) <;> cases (m &&& 0o100 != 0) <;>
    cases (m &&& 0o040 != 0) <;> cases (m &&& 0o020 != 0) <;> cases (m &&& 0o010 != 0) <;>
    cases (m &&& 0o004 != 0) <;> cases (m &&& 0o002 != 0) <;> cases (m &&& 0o001 != 0) <;> rfl

/-- Bit 8 of the mode (OWNER_READ, 0o400). -/
theorem land_0o400 (m : Nat) : (m &&& 0o400 != 0) = m.testBit 8 := land_pow_testBit m 8

/-- Bit 7 of the mode (OWNER_WRITE, 0o200). -/
theorem land_0o200 (m : Nat) : (m &&& 0o200 != 0) = m.testBit 7 := land_pow_testBit m 7

/-- Bit 6 of the mode (OWNER_EXEC, 0o100). -/
theorem land_0o100 (m : Nat) : (m &&& 0o100 != 0) = m.testBit 6 := land_pow_testBit m 6

/-- Bit 5 of the mode (GROUP_READ, 0o040). -/
theorem land_0o040 (m : Nat) : (m &&& 0o040 != 0) = m.testBit 5 := land_pow_testBit m 5

/-- Bit 4 of the mode (GROUP_WRITE, 0o020). -/
theorem land_0o020 (m : Nat) : (m &&& 0o020 != 0) = m.testBit 4 := land_pow_testBit m 4

/-- Bit 3 of the mode (GROUP_EXEC, 0o010). -/
theorem land_0o010 (m : Nat) : (m &&& 0o010 != 0) = m.testBit 3 := land_pow_testBit m 3

/-- Bit 2 of the mode (OTHERS_READ, 0o004). -/
theorem land_0o004 (m : Nat) : (m &&& 0o004 != 0) = m.testBit 2 := land_pow_testBit m 2

/-- Bit 1 of the mode (OTHERS_WRITE, 0o002). -/
theorem land_0o002 (m : Nat) : (m &&& 0o002 != 0) = m.testBit 1 := land_pow_testBit m 1

/-- Bit 0 of the mode (OTHERS_EXEC, 0o001). -/
theorem land_0o001 (m : Nat) : (m &&& 0o001 != 0) = m.testBit 0 := land_pow_testBit m 0

/-- `mode_to_permission` in terms of the mode's bits 8..0. -/
theorem mode_to_permission_testBit (m : Nat) :
    mode_to_permission m =
      ⟨m.testBit 8, m.testBit 7, m.testBit 6, m.testBit 5, m.testBit 4,
       m.testBit 3, m.testBit 2, m.testBit 1, m.testBit 0⟩ := by
  rw [mode_to_permission_expand, land_0o400, land_0o200, land_0o100, land_0o040,
      land_0o020, land_0o010, land_0o004, land_0o002, land_0o001]

/-- C6: for every 16-bit mode value `m`, after `set_mode(m)` on
`PublisherDetails` or `SubscriberDetails` the `mode()` accessor returns
`m`, and `mode_to_permission(m)` contains each of the nine permission
flags OWNER_READ/WRITE/EXEC, GROUP_READ/WRITE/EXEC, OTHERS_READ/WRITE/EXEC
exactly when the corresponding POSIX bit (0o400, 0o200, 0o100, 0o040,
0o020, 0o010, 0o004, 0o002, 0o001 — i.e. bit 8 down to bit 0) is set in
`m`. -/
theorem C6_mode_round_trip_and_posix_bits (m : Nat) (_hm : m < 2 ^ 16)
    (pd : PublisherDetails) (sd : SubscriberDetails) :
    (pd.set_mode m).mode_fn = m ∧
    (sd.set_mode m).mode_fn = m ∧
    (mode_to_permission m).owner_read = m.testBit 8 ∧
    (mode_to_permission m).owner_write = m.testBit 7 ∧
    (mode_to_permission m).owner_exec = m.testBit 6 ∧
    (mode_to_permission m).group_read = m.testBit 5 ∧
    (mode_to_permission m).group_write = m.testBit 4 ∧
    (mode_to_permission m).group_exec = m.testBit 3 ∧
    (mode_to_permission m).others_read = m.testBit 2 ∧
    (mode_to_permission m).others_write = m.testBit 1 ∧
    (mode_to_permission m).others_exec = m.testBit 0 := by
  rw [mode_to_permission_testBit]
  exact ⟨rfl, rfl, rfl, rfl, rfl, rfl, rfl, rfl, rfl, rfl, rfl⟩

/-- Witness for C6 at the mode 0o754 (rwxr-xr--). -/
theorem C6_mode_witness :
    (PublisherDetails.set_mode
        ⟨1, 2, 8, 16, DataSegmentType.Static, 1, 0, 0, 0⟩ 0o754).mode_fn = 0o754 ∧
    (SubscriberDetails.set_mode ⟨1, 2, 1, 0, 0, 0⟩ 0o754).mode_fn = 0o754 ∧
    (mode_to_permission 0o754).owner_read = Nat.testBit 0o754 8 ∧
    (mode_to_permission 0o754).owner_write = Nat.testBit 0o754 7 ∧
    (mode_to_permission 0o754).owner_exec = Nat.testBit 0o754 6 ∧
    (mode_to_permission 0o754).group_read = Nat.testBit 0o754 5 ∧
    (mode_to_permission 0o754).group_write = Nat.testBit 0o754 4 ∧
    (mode_to_permission 0o754).group_exec = Nat.testBit 0o754 3 ∧
    (mode_to_permission 0o754).others_read = Nat.testBit 0o754 2 ∧
    (mode_to_permission 0o754).others_write = Nat.testBit 0o754 1 ∧
    (mode_to_permission 0o754).others_exec = Nat.testBit 0o754 0 :=
  C6_mode_round_trip_and_posix_bits 0o754 (by decide)
    ⟨1, 2, 8, 16, DataSegmentType.Static, 1, 0, 0, 0⟩ ⟨1, 2, 1, 0, 0, 0⟩

/-- The publisher sweep of `remove_dead_node_id` keeps exactly the
entries that do not belong to the dead node or whose cleanup callback
answered `SkipPort`, and invokes the callback exactly once per entry of
the dead node, in registry order. -/
theorem sweep_publishers_spec (nid : Nat) (cb : UniquePortId → PortCleanupAction)
    (l : List (Nat × PublisherDetails)) :
    sweep_publishers nid cb l =
      (l.filter (fun e =>
         !(e.2.node_id == nid &&
           cb (UniquePortId.Publisher e.2.publisher_id) == PortCleanupAction.RemovePort)),
       (l.filter (fun e => e.2.node_id == nid)).map
         (fun e => UniquePortId.Publisher e.2.publisher_id)) := by
  induction l with
  | nil => rfl
  | cons e rest ih =>
    by_cases hn : e.2.node_id = nid
    · have hn' : (e.2.node_id == nid) = true := by simp [hn]
      by_cases hc : cb (UniquePortId.Publisher e.2.publisher_id) = PortCleanupAction.RemovePort
      · have hc' :
            (cb (UniquePortId.Publisher e.2.publisher_id) ==
              PortCleanupAction.RemovePort) = true := by simp [hc]
        simp [sweep_publishers, hn, hc, hn', hc', ih, List.filter_cons]
      · have hc' :
            (cb (UniquePortId.Publisher e.2.publisher_id) ==
              PortCleanupAction.RemovePort) = false := by simp [hc]
        simp [sweep_publishers, hn, hc, hn', hc', ih, List.filter_cons]
    · have hn' : (e.2.node_id == nid) = false := by simp [hn]
      simp [sweep_publishers, hn, hn', ih, List.filter_cons]

/-- The subscriber sweep of `remove_dead_node_id`, same shape as the
publisher sweep. -/
theorem sweep_subscribers_spec (nid : Nat) (cb : UniquePortId → PortCleanupAction)
    (l : List (Nat × SubscriberDetails)) :
    sweep_subscribers nid cb l =
      (l.filter (fun e =>
         !(e.2.node_id == nid &&
           cb (UniquePortId.Subscriber e.2.subscriber_id) == PortCleanupAction.RemovePort)),
       (l.filter (fun e => e.2.node_id == nid)).map
         (fun e => UniquePortId.Subscriber e.2.subscriber_id)) := by
  induction l with
  | nil => rfl
  | cons e rest ih =>
    by_cases hn : e.2.node_id = nid
    · have hn' : (e.2.node_id == nid) = true := by simp [hn]
      by_cases hc : cb (UniquePortId.Subscriber e.2.subscriber_id) = PortCleanupAction.RemovePort
      · have hc' :
            (cb (UniquePortId.Subscriber e.2.subscriber_id) ==
              PortCleanupAction.RemovePort) = true := by simp [hc]
        simp [sweep_subscribers, hn, hc, hn', hc', ih, List.filter_cons]
      · have hc' :
            (cb (UniquePortId.Subscriber e.2.subscriber_id) ==
              PortCleanupAction.RemovePort) = false := by simp [hc]
        simp [sweep_subscribers, hn, hc, hn', hc', ih, List.filter_cons]
    · have hn' : (e.2.node_id == nid) = false := by simp [hn]
      simp [sweep_subscribers, hn, hn', ih, List.filter_cons]

/-- C4: for every registry state and every node id,
`remove_dead_node_id` invokes the cleanup callback exactly for those
registered endpoints whose node id equals the given one (its invocation
trace is the in-order image of exactly those endpoints), releases an
endpoint's handle if and only if the callback returns `RemovePort` for
it (survivors are exactly the entries of other nodes plus those whose
callback said `SkipPort`), and processes every publisher before any
subscriber (the publisher trace is a prefix of the whole trace). -/
theorem C4_remove_dead_node_id_spec (cfg : DynamicConfig) (nid : Nat)
    (cb : UniquePortId → PortCleanupAction) :
    cfg.remove_dead_node_id nid cb =
      ({ subscribers := cfg.subscribers.filter (fun e =>
           !(e.2.node_id == nid &&
             cb (UniquePortId.Subscriber e.2.subscriber_id) ==
               PortCleanupAction.RemovePort)),
         publishers := cfg.publishers.filter (fun e =>
           !(e.2.node_id == nid &&
             cb (UniquePortId.Publisher e.2.publisher_id) ==
               PortCleanupAction.RemovePort)) },
       ((cfg.publishers.filter (fun e => e.2.node_id == nid)).map
          (fun e => UniquePortId.Publisher e.2.publisher_id)) ++
       ((cfg.subscribers.filter (fun e => e.2.node_id == nid)).map
          (fun e => UniquePortId.Subscriber e.2.subscriber_id))) := by
  unfold DynamicConfig.remove_dead_node_id
  rw [sweep_publishers_spec, sweep_subscribers_spec]

/-- C2: for every publisher configured with `max_loaned_samples = k`:
each successful loan increments the outstanding-loan counter,
drop-without-send and send each decrement it, any loan attempted while
the counter equals `k` fails with `ExceedsMaxLoans`, and after dropping
or sending one outstanding sample a new loan succeeds again. -/
theorem C2_outstanding_loan_counter (p : PublisherModel)
    (s : InitSample Nat) (sub : SubscriberModel Nat) :
    (p.outstanding_loans < p.max_loaned_samples →
      p.loan_uninit =
        Except.ok ({ p with outstanding_loans := p.outstanding_loans + 1 }, ⟨⟩)) ∧
    (p.outstanding_loans = p.max_loaned_samples →
      p.loan_uninit = Except.error LoanError.ExceedsMaxLoans) ∧
    p.drop_sample.outstanding_loans = p.outstanding_loans - 1 ∧
    (p.send s sub).1.outstanding_loans = p.outstanding_loans - 1 ∧
    (p.outstanding_loans = p.max_loaned_samples → 0 < p.max_loaned_samples →
      p.drop_sample.loan_uninit =
        Except.ok
          ({ p.drop_sample with
             outstanding_loans := p.drop_sample.outstanding_loans + 1 }, ⟨⟩) ∧
      (p.send s sub).1.loan_uninit =
        Except.ok
          ({ (p.send s sub).1 with
             outstanding_loans := (p.send s sub).1.outstanding_loans + 1 }, ⟨⟩)) := by
  refine ⟨?_, ?_, rfl, ?_, ?_⟩
  · intro h
    simp [PublisherModel.loan_uninit, h]
  · intro h
    simp [PublisherModel.loan_uninit, h]
  · by_cases hq : sub.queue.length < sub.buffer_size <;>
      simp [PublisherModel.send, hq]
  · intro h hpos
    have hd : p.outstanding_loans - 1 < p.max_loaned_samples := by omega
    constructor
    · simp [PublisherModel.loan_uninit, PublisherModel.drop_sample, hd]
    · by_cases hq : sub.queue.length < sub.buffer_size <;>
        simp [PublisherModel.loan_uninit, PublisherModel.send, hq, hd]

/-- Witness for C2 with `max_loaned_samples = 2`: a loan at counter 1
succeeds, a loan at counter 2 fails with `ExceedsMaxLoans`, and after a
drop at counter 2 a loan succeeds again. -/
theorem C2_loan_counter_witness :
    PublisherModel.loan_uninit ⟨2, 0, 1⟩ = Except.ok (⟨2, 0, 2⟩, ⟨⟩) ∧
    PublisherModel.loan_uninit ⟨2, 0, 2⟩ = Except.error LoanError.ExceedsMaxLoans ∧
    PublisherModel.loan_uninit (PublisherModel.drop_sample ⟨2, 0, 2⟩) =
      Except.ok (⟨2, 0, 2⟩, ⟨⟩) := by
  have h1 := C2_outstanding_loan_counter ⟨2, 0, 1⟩ ⟨0⟩ ⟨1, []⟩
  have h2 := C2_outstanding_loan_counter ⟨2, 0, 2⟩ ⟨0⟩ ⟨1, []⟩
  exact ⟨h1.1 (by decide), h2.2.1 rfl, (h2.2.2.2.2 rfl (by decide)).1⟩

/-- C5: for a publisher whose current max slice length is `L` and that
has loan capacity left, `loan_slice(n)` succeeds and returns a sample
over exactly `n` elements for every `n ≤ L`, and `loan_slice(n)` with
`n > L` fails with `ExceedsMaxLoanSize`. -/
theorem C5_loan_slice_bounds (p : PublisherModel) (L n : Nat)
    (hL : p.max_slice_len = L)
    (hcap : p.outstanding_loans < p.max_loaned_samples) :
    (n ≤ L →
      p.loan_slice n =
        Except.ok ({ p with outstanding_loans := p.outstanding_loans + 1 }, ⟨n⟩)) ∧
    (L < n → p.loan_slice n = Except.error LoanError.ExceedsMaxLoanSize) := by
  subst hL
  constructor
  · intro h
    have h' : ¬p.max_slice_len < n := by omega
    simp [PublisherModel.loan_slice, h', hcap]
  · intro h
    simp [PublisherModel.loan_slice, h]

/-- Witness for C5 with `initial_max_slice_len = 125`: `loan_slice(125)`
succeeds with a 125-element sample, `loan_slice(126)` fails with
`ExceedsMaxLoanSize`. -/
theorem C5_loan_slice_witness :
    PublisherModel.loan_slice ⟨2, 125, 0⟩ 125 = Except.ok (⟨2, 125, 1⟩, ⟨125⟩) ∧
    PublisherModel.loan_slice ⟨2, 125, 0⟩ 126 =
      Except.error LoanError.ExceedsMaxLoanSize := by
  have ha := C5_loan_slice_bounds ⟨2, 125, 0⟩ 125 125 rfl (by decide)
  have hb := C5_loan_slice_bounds ⟨2, 125, 0⟩ 125 126 rfl (by decide)
  exact ⟨ha.1 (by decide), hb.2 (by decide)⟩

/-- Publishing a list of values from a publisher with loan capacity into
a subscriber queue with room appends exactly those values, in order, and
returns the loan counter to its starting value after every round. -/
theorem publish_all_appends {α : Type} (vs : List α) (st : PubSubState α)
    (hloan : st.publisher.outstanding_loans < st.publisher.max_loaned_samples)
    (hroom : st.subscriber.queue.length + vs.length ≤ st.subscriber.buffer_size) :
    publish_all st vs =
      Except.ok
        { publisher := st.publisher
          subscriber :=
            { buffer_size := st.subscriber.buffer_size
              queue := st.subscriber.queue ++ vs } } := by
  induction vs generalizing st with
  | nil =>
    simp [publish_all]
  | cons v vs ih =>
    have hq : st.subscriber.queue.length < st.subscriber.buffer_size := by
      simp [List.length_cons] at hroom
      omega
    have hstep :
        publish_value st v =
          Except.ok
            { publisher := st.publisher
              subscriber :=
                { buffer_size := st.subscriber.buffer_size
                  queue := st.subscriber.queue ++ [v] } } := by
      simp [publish_value, PublisherModel.loan_uninit, hloan,
        UninitSample.write_payload, PublisherModel.send, hq]
    have h2 := ih
      { publisher := st.publisher
        subscriber :=
          { buffer_size := st.subscriber.buffer_size
            queue := st.subscriber.queue ++ [v] } }
      hloan (by simp [List.length_cons] at hroom ⊢; omega)
    simp only [publish_all, hstep, h2, List.append_assoc, List.singleton_append]

/-- Draining a subscriber whose queue holds exactly `q` returns `q` in
order. -/
theorem receive_all_drains {α : Type} (q : List α) (bs : Nat) :
    receive_all ⟨bs, q⟩ q.length = (q, ⟨bs, []⟩) := by
  induction q with
  | nil => rfl
  | cons v rest ih =>
    simp [receive_all, SubscriberModel.receive, ih]

/-- C1: for every sequence of values `vs`, performing
`loan_uninit(); write_payload(v); send()` for each `v` in `vs` on a
publisher connected to a subscriber (empty queue, enough buffer room,
loan capacity available) delivers exactly `vs`: each received payload is
equal to the value that was written, and a subscriber draining its queue
receives the samples in the order they were sent. -/
theorem C1_round_trip_and_fifo_order {α : Type} (vs : List α) (st : PubSubState α)
    (hempty : st.subscriber.queue = [])
    (hout : st.publisher.outstanding_loans = 0)
    (hmax : 0 < st.publisher.max_loaned_samples)
    (hroom : vs.length ≤ st.subscriber.buffer_size) :
    publish_all st vs =
      Except.ok
        { publisher := st.publisher
          subscriber := { buffer_size := st.subscriber.buffer_size, queue := vs } } ∧
    receive_all ⟨st.subscriber.buffer_size, vs⟩ vs.length = (vs, ⟨st.subscriber.buffer_size, []⟩) := by
  constructor
  · have h := publish_all_appends vs st (by omega) (by rw [hempty]; simpa using hroom)
    rw [h, hempty]
    simp
  · exact receive_all_drains vs st.subscriber.buffer_size

/-- Witness for C1: publishing 42, 7, 3 through the loan/write/send
pipeline and then receiving three times yields 42, 7, 3 in order. -/
theorem C1_round_trip_witness :
    publish_all (⟨⟨4, 0, 0⟩, ⟨3, []⟩⟩ : PubSubState Nat) [42, 7, 3] =
      Except.ok ⟨⟨4, 0, 0⟩, ⟨3, [42, 7, 3]⟩⟩ ∧
    receive_all (⟨3, [42, 7, 3]⟩ : SubscriberModel Nat) 3 = ([42, 7, 3], ⟨3, []⟩) :=
  C1_round_trip_and_fifo_order [42, 7, 3] ⟨⟨4, 0, 0⟩, ⟨3, []⟩⟩ rfl rfl
    (by decide) (by decide)

end Iceoryx2
